import Mathlib

/-!
# Verification of `check_holiday_updates.py` (vacanza-aux)

A shallow embedding of the holiday-updates monitor: the age resolver
(`get_file_age_days`), the directory scanner (`scan_directory`), the issue
reconciler (`find_existing_issue` / `create_github_issue` /
`process_outdated_files`) and the orchestrator (`run`), each translated from
the Python source.  External effects (git subprocess calls, the GitHub API,
the filesystem, the clock) are modelled as explicit oracle inputs and explicit
state passing; everything else is translated line by line.

Definitions come first (the embedding, then concrete sample worlds used to
exercise the theorems); the theorems follow.
-/

namespace HolidayUpdates

/-- Python `round` on a rational: round half to even (banker's rounding),
as used by `round(age.total_seconds() / 86400)`. -/
def pyRound (q : ℚ) : ℤ :=
  let f := ⌊q⌋
  if q - f < 1/2 then f
  else if q - f > 1/2 then f + 1
  else if f % 2 = 0 then f else f + 1

/-- One step of Python `str.title`: the accumulated string plus whether the
previous character was cased (a letter, in the ASCII range this model covers). -/
def pyTitleStep (acc : String × Bool) (c : Char) : String × Bool :=
  let cased := c.isAlpha
  let c2 := if cased then (if acc.2 then c.toLower else c.toUpper) else c
  (acc.1.push c2, cased)

/-- Python `str.title` (restricted to ASCII, which covers the snake_case file
names the script scans): a cased character is uppercased when the previous
character was not cased and lowercased otherwise. -/
def pyTitle (s : String) : String :=
  (s.data.foldl pyTitleStep ("", false)).1

/-- Python `str.replace(old, new)` in the one-character case used by
`extract_name_from_path` (`.replace("_", " ")`): with a one-character pattern
and a one-character replacement, `str.replace` is exactly a character map. -/
def pyReplaceChar (old new : Char) : List Char → List Char
  | [] => []
  | c :: cs => (if c = old then new else c) :: pyReplaceChar old new cs

/-- Index of the last occurrence of `c` (Python `str.rfind`), as used by
`pathlib` to compute a path's suffix. -/
def lastIndexOf (c : Char) : List Char → Option Nat
  | [] => none
  | x :: xs =>
    match lastIndexOf c xs with
    | some i => some (i + 1)
    | none => if x = c then some 0 else none

/-- Models `pathlib.PurePath.stem` of a file name: the name with its last suffix
removed, where the suffix is `name[i:]` for `i = name.rfind('.')` only when
`0 < i < len(name) - 1`. -/
def pathStem (name : String) : String :=
  match lastIndexOf '.' name.data with
  | some i =>
    if 0 < i ∧ i < name.data.length - 1 then String.mk (name.data.take i) else name
  | none => name

/-- The per-file record built by `scan_directory` (the Python dict
`file_info`). -/
structure FileInfo where
  path : String
  name : String
  age_days : ℤ
  last_modified : String
  threshold_days : ℤ
  directory_type : String
deriving DecidableEq, Repr

/-- A GitHub issue as the script observes it (number, title, body, labels). -/
structure Issue where
  number : Nat
  title : String
  body : String
  labels : List String
deriving DecidableEq, Repr

/-- The tracker-side error (`GithubException`). -/
inductive GithubError
  | apiError : String → GithubError
deriving DecidableEq, Repr

/-- Explicit state of the GitHub issue tracker, with failure schedules for the
two API calls the script makes (head of the list = next call; an empty
schedule means the call succeeds) and call counters recording every contact
with the tracker. -/
structure GithubState where
  openIssues : List Issue
  nextNumber : Nat
  searchFail : List Bool
  createFail : List Bool
  searchCalls : Nat
  createCalls : Nat
deriving DecidableEq, Repr

/-- Models `repo.get_issues(state="open")`: consumes one entry of the search-failure
schedule, counts the call, and either fails with a `GithubException` or
returns the open issues. -/
def getIssues (st : GithubState) : GithubState × Except GithubError (List Issue) :=
  let st' := { st with searchFail := st.searchFail.tail, searchCalls := st.searchCalls + 1 }
  if st.searchFail.headD false then (st', .error (.apiError "search failed"))
  else (st', .ok st.openIssues)

/-- Models `repo.create_issue(title=..., body=..., labels=...)`: consumes one entry of
the create-failure schedule, counts the call, and either fails with a
`GithubException` or appends a new open issue with the next issue number. -/
def createIssue (st : GithubState) (title body : String) (labels : List String) :
    GithubState × Except GithubError Issue :=
  let st' := { st with createFail := st.createFail.tail, createCalls := st.createCalls + 1 }
  if st.createFail.headD false then (st', .error (.apiError "create failed"))
  else
    let issue : Issue := ⟨st.nextNumber, title, body, labels⟩
    ({ st' with openIssues := st'.openIssues ++ [issue], nextNumber := st'.nextNumber + 1 },
     .ok issue)

/-- The three git queries tried by `get_file_age_days`, in source order:
`git log -1 --format=%ct --follow -- path`, the same without `--follow`, and
the same with `--all`. -/
inductive GitQuery
  | follow
  | plain
  | allRefs
deriving DecidableEq, Repr

/-- Oracle for the git subprocess calls: whether `git status` succeeds, and for
each (relative path, query) the timestamp printed by `git log -1 --format=%ct`,
with `none` covering both a failing command and empty output (the loop in the
source treats the two identically). -/
structure GitOracle where
  statusOk : Bool
  result : String → GitQuery → Option ℤ

/-- The `HolidayUpdatesChecker` object: configuration plus the two opaque
datetime-formatting functions the source applies to commit timestamps
(`datetime.fromtimestamp(ts).isoformat()` and
`datetime.fromisoformat(s).strftime("%B %d, %Y")`). -/
structure Checker where
  threshold_days : ℤ
  dry_run : Bool
  hasRepo : Bool
  template : Option String
  formatDate : String → String
  isoFormat : ℤ → String

/-- A directory as the scan sees it: whether it exists, its last path
component (`directory.name`), its path relative to the repository root, and
the file names produced by `directory.glob("*.py")` in enumeration order. -/
structure DirModel where
  dirExists : Bool
  name : String
  relPath : String
  files : List String

/-- The repository-relative path of a file in the scanned directory
(`str(file_path.relative_to(self.repo_path))`). -/
def relOf (d : DirModel) (fname : String) : String :=
  d.relPath ++ "/" ++ fname

/-- Whether a file name matches the `*.py` glob of `scan_directory`
(`fnmatch`: anything, then the literal suffix `.py`). -/
def matchesPyGlob (name : String) : Bool :=
  ['.', 'p', 'y'].isSuffixOf name.data

/-- The files the scan checks: the `*.py` glob results with `__init__.py`
removed, in enumeration order (the source applies no sort). -/
def pythonFiles (d : DirModel) : List String :=
  (d.files.filter (fun f => matchesPyGlob f)).filter (fun f => f ≠ "__init__.py")

/-- The list `git_commands` of `get_file_age_days`: the order of preference of the
three queries. -/
def git_commands : List GitQuery := [.follow, .plain, .allRefs]

/-- The query loop of `get_file_age_days`: run each command in order, break on
the first nonempty output, skip failing commands. -/
def findFirstResult (g : GitOracle) (p : String) : List GitQuery → Option ℤ
  | [] => none
  | q :: qs =>
    match g.result p q with
    | some ts => some ts
    | none => findFirstResult g p qs

/-- The timestamp-to-age conversion of `get_file_age_days`:
`round(age.total_seconds() / 86400)` where `age = now - last_commit_date`. -/
def ageDaysOf (now : ℚ) (ts : ℤ) : ℤ :=
  pyRound ((now - (ts : ℚ)) / 86400)

/-- Models `HolidayUpdatesChecker.get_file_age_days`: check `git status`, try the
three queries in order, and convert the first timestamp found to an age in
days via `round((now - ts) / 86400)`; raises (models `RuntimeError`) when
`git status` fails or no query yields output. -/
def get_file_age_days (g : GitOracle) (now : ℚ) (relPath : String) : Except String ℤ :=
  if ¬ g.statusOk then .error ("Git repository not accessible: " ++ relPath)
  else
    match findFirstResult g relPath git_commands with
    | none => .error ("No git commit history found for file: " ++ relPath)
    | some ts => .ok (ageDaysOf now ts)

/-- Follows the spec's words (§4.1, §6), for comparison with
`get_file_age_days`: "preferring a rename-following query and falling back to
a plain query if the first yields no result", failing with
`HistoryUnavailable` "when the underlying version-control history query
returns no record for the path" or the tool is inaccessible — i.e. exactly a
two-step preference order, with no third query. -/
def ageDays_specTwoStep (g : GitOracle) (now : ℚ) (relPath : String) : Except String ℤ :=
  if ¬ g.statusOk then .error "HistoryUnavailable"
  else
    match findFirstResult g relPath [.follow, .plain] with
    | none => .error "HistoryUnavailable"
    | some ts => .ok (ageDaysOf now ts)

/-- Models `HolidayUpdatesChecker.get_last_commit_date`: the plain
`git log -1 --format=%ct -- path` query alone; raises when it fails or prints
nothing. -/
def get_last_commit_date (g : GitOracle) (relPath : String) : Except String ℤ :=
  match g.result relPath .plain with
  | some ts => .ok ts
  | none => .error ("No git commit history found for file: " ++ relPath)

/-- Models `HolidayUpdatesChecker.extract_name_from_path`:
`file_path.stem.replace("_", " ").title()`. -/
def extract_name_from_path (fname : String) : String :=
  pyTitle (String.mk (pyReplaceChar '_' ' ' (pathStem fname).data))

/-- The `for file_path in python_files` loop body of `scan_directory`:
resolve the age; when it exceeds the threshold, fetch the last commit date and
emit a `FileInfo`; age-resolution and commit-date failures propagate. -/
def scanFiles (c : Checker) (g : GitOracle) (now : ℚ) (d : DirModel)
    (threshold_days : ℤ) : List String → Except String (List FileInfo)
  | [] => .ok []
  | f :: rest =>
    match get_file_age_days g now (relOf d f) with
    | .error e => .error e
    | .ok age_days =>
      if age_days > threshold_days then
        match get_last_commit_date g (relOf d f) with
        | .error e => .error e
        | .ok ts =>
          match scanFiles c g now d threshold_days rest with
          | .error e => .error e
          | .ok tail =>
            .ok ({ path := relOf d f
                   name := extract_name_from_path f
                   age_days := age_days
                   last_modified := c.isoFormat ts
                   threshold_days := threshold_days
                   directory_type := d.name } :: tail)
      else scanFiles c g now d threshold_days rest

/-- Whether the scan classifies file `f` as outdated: its age resolves and
exceeds the threshold. -/
def isOutdated (g : GitOracle) (now : ℚ) (d : DirModel) (threshold_days : ℤ)
    (f : String) : Bool :=
  match get_file_age_days g now (relOf d f) with
  | .ok a => decide (a > threshold_days)
  | .error _ => false

/-- Models `HolidayUpdatesChecker.scan_directory`: empty result when the directory
does not exist (non-fatal), otherwise the loop over the eligible files. -/
def scan_directory (c : Checker) (g : GitOracle) (now : ℚ) (d : DirModel)
    (threshold_days : ℤ) : Except String (List FileInfo) :=
  if ¬ d.dirExists then .ok []
  else scanFiles c g now d threshold_days (pythonFiles d)

/-- Models `HolidayUpdatesChecker.check_freshness`: scan the configured files
directory with the configured threshold. -/
def check_freshness (c : Checker) (g : GitOracle) (now : ℚ) (d : DirModel) :
    Except String (List FileInfo) :=
  scan_directory c g now d c.threshold_days

/-- Models `HolidayUpdatesChecker.create_issue_title`. -/
def create_issue_title (fi : FileInfo) : String :=
  "[Holiday Updates] Update required: " ++ fi.name

/-- The `template.format(...)` call of `create_issue_body`: substitute the
named placeholders. -/
def renderTemplate (tmpl : String) (fi : FileInfo) (formatted_date : String) : String :=
  ((((((tmpl.replace "{path}" fi.path).replace
      "{formatted_date}" formatted_date).replace
      "{age_days}" (toString fi.age_days)).replace
      "{threshold_days}" (toString fi.threshold_days)).replace
      "{directory_type}" (pyTitle fi.directory_type)).replace
      "{name}" fi.name).replace
      "{overdue_days}" (toString (fi.age_days - fi.threshold_days))

/-- Models `HolidayUpdatesChecker.create_issue_body`: render the template, or fall
back to the minimal inline message when the template file is unavailable. -/
def create_issue_body (c : Checker) (fi : FileInfo) : String :=
  let formatted_date := c.formatDate fi.last_modified
  match c.template with
  | none =>
    "File " ++ fi.path ++ " needs updating (last modified: " ++ formatted_date ++ ")"
  | some tmpl => renderTemplate tmpl fi formatted_date

/-- Models `HolidayUpdatesChecker.find_existing_issue`: `None` without contacting the
tracker when no repo handle is available; otherwise list the open issues and
return the first with exactly the canonical title.  A `GithubException` from
the listing is caught and also yields `None`. -/
def find_existing_issue (c : Checker) (st : GithubState) (fi : FileInfo) :
    GithubState × Option Issue :=
  if ¬ c.hasRepo then (st, none)
  else
    let title := create_issue_title fi
    match getIssues st with
    | (st', .error _) => (st', none)
    | (st', .ok issues) => (st', issues.find? (fun i => i.title = title))

/-- Models `HolidayUpdatesChecker.create_github_issue`: `True` immediately in
dry-run mode; `False` when no repo handle; `True` when an open issue with the
canonical title already exists; otherwise create the issue, returning `False`
when the creation raises a `GithubException`. -/
def create_github_issue (c : Checker) (st : GithubState) (fi : FileInfo) :
    GithubState × Bool :=
  if c.dry_run then (st, true)
  else if ¬ c.hasRepo then (st, false)
  else
    match find_existing_issue c st fi with
    | (st1, some _) => (st1, true)
    | (st1, none) =>
      let title := create_issue_title fi
      let body := create_issue_body c fi
      match createIssue st1 title body ["holiday-updates", "maintenance", "data-update"] with
      | (st2, .ok _) => (st2, true)
      | (st2, .error _) => (st2, false)

/-- The stats dict `{"created": 0, "skipped": 0, "errors": 0}`. -/
structure RunStats where
  created : Nat
  skipped : Nat
  errors : Nat
deriving DecidableEq, Repr

/-- Models `HolidayUpdatesChecker.process_outdated_files`: reconcile each record in
order, counting `created` on `True` and `errors` on `False`; nothing in the
loop raises past the record's own `try`. -/
def process_outdated_files (c : Checker) (st : GithubState) :
    List FileInfo → GithubState × RunStats
  | [] => (st, ⟨0, 0, 0⟩)
  | fi :: rest =>
    let (st1, ok) := create_github_issue c st fi
    let (st2, stats) := process_outdated_files c st1 rest
    (st2, if ok then { stats with created := stats.created + 1 }
          else { stats with errors := stats.errors + 1 })

/-- The dict returned by `HolidayUpdatesChecker.run`. -/
structure RunResult where
  outdated_files : List FileInfo
  stats : RunStats
  timestamp : String
deriving DecidableEq, Repr

/-- Models `HolidayUpdatesChecker.run`: scan, reconcile, and package the result with
a timestamp.  A failure raised by the scan propagates (the source has no
try/except here); reconciliation never raises. -/
def run (c : Checker) (g : GitOracle) (now : ℚ) (d : DirModel)
    (st : GithubState) (nowIso : String) : Except String (RunResult × GithubState) :=
  match check_freshness c g now d with
  | .error e => .error e
  | .ok outdated =>
    let (st2, stats) := process_outdated_files c st outdated
    .ok ({ outdated_files := outdated, stats := stats, timestamp := nowIso }, st2)

/-- The labels fixed by `create_github_issue`. -/
def issueLabels : List String := ["holiday-updates", "maintenance", "data-update"]

/-! ## Concrete sample worlds -/

/-- A concrete checker configuration used to exercise the theorems: threshold
180, live mode, repo available, template file unavailable, constant datetime
formatting. -/
def sampleChecker : Checker :=
  { threshold_days := 180
    dry_run := false
    hasRepo := true
    template := none
    formatDate := fun _ => "January 01, 2024"
    isoFormat := fun _ => "2024-01-01T00:00:00" }

/-- A concrete scanned directory: `aruba.py`, `zambia.py` and the excluded
`__init__.py`. -/
def sampleDir : DirModel :=
  { dirExists := true
    name := "holidays"
    relPath := "holidays"
    files := ["aruba.py", "zambia.py", "__init__.py"] }

/-- A concrete git oracle: with "now" at the epoch, `aruba.py` was last
committed 200 days ago and `zambia.py` 10 days ago. -/
def sampleGit : GitOracle :=
  { statusOk := true
    result := fun p _ =>
      if p = "holidays/aruba.py" then some (-17280000)
      else if p = "holidays/zambia.py" then some (-864000)
      else none }

/-- The record the scan emits for `aruba.py` in the sample world. -/
def arubaRecord : FileInfo :=
  { path := "holidays/aruba.py"
    name := "Aruba"
    age_days := 200
    last_modified := "2024-01-01T00:00:00"
    threshold_days := 180
    directory_type := "holidays" }

/-- A git oracle with no history for any path. -/
def noHistoryGit : GitOracle :=
  { statusOk := true, result := fun _ _ => none }

/-- A git oracle whose only record is found by the third, `--all` query. -/
def allOnlyGit : GitOracle :=
  { statusOk := true
    result := fun _ q => match q with | .allRefs => some 0 | _ => none }

/-- A git oracle whose only record is found by the plain (second) query. -/
def plainOnlyGit : GitOracle :=
  { statusOk := true
    result := fun _ q => match q with | .plain => some (-864000) | _ => none }

/-- The sample directory with the glob enumerating in non-lexicographic
order. -/
def sampleDirRev : DirModel :=
  { dirExists := true
    name := "holidays"
    relPath := "holidays"
    files := ["zambia.py", "aruba.py"] }

/-- A git oracle where both files are outdated: `aruba.py` 200 days,
`zambia.py` 300 days. -/
def oldGit : GitOracle :=
  { statusOk := true
    result := fun p _ =>
      if p = "holidays/aruba.py" then some (-17280000)
      else if p = "holidays/zambia.py" then some (-25920000)
      else none }

/-- The record the scan emits for `zambia.py` under `oldGit`. -/
def zambiaRecord300 : FileInfo :=
  { path := "holidays/zambia.py"
    name := "Zambia"
    age_days := 300
    last_modified := "2024-01-01T00:00:00"
    threshold_days := 180
    directory_type := "holidays" }

/-- The empty tracker: no open issues, no scheduled API failures. -/
def emptyTracker : GithubState :=
  { openIssues := [], nextNumber := 1, searchFail := [], createFail := []
    searchCalls := 0, createCalls := 0 }

/-- A tracker that already has the Aruba issue open. -/
def arubaOpenTracker : GithubState :=
  { openIssues := [⟨7, "[Holiday Updates] Update required: Aruba", "body", []⟩]
    nextNumber := 8, searchFail := [], createFail := []
    searchCalls := 0, createCalls := 0 }

/-- A tracker whose next search call raises a `GithubException` while
creation succeeds, with the Aruba issue already open. -/
def searchFailTracker : GithubState :=
  { openIssues := [⟨7, "[Holiday Updates] Update required: Aruba", "body", []⟩]
    nextNumber := 8, searchFail := [true], createFail := []
    searchCalls := 0, createCalls := 0 }

/-- Records for Bolivia and Chad, used alongside Aruba in the three-record
scenario. -/
def boliviaRecord : FileInfo :=
  { path := "holidays/bolivia.py"
    name := "Bolivia"
    age_days := 250
    last_modified := "2024-01-01T00:00:00"
    threshold_days := 180
    directory_type := "holidays" }

/-- See `boliviaRecord`. -/
def chadRecord : FileInfo :=
  { path := "holidays/chad.py"
    name := "Chad"
    age_days := 400
    last_modified := "2024-01-01T00:00:00"
    threshold_days := 180
    directory_type := "holidays" }

/-- A tracker scheduled to fail exactly the second creation call. -/
def threeSchedTracker : GithubState :=
  { openIssues := [], nextNumber := 1, searchFail := [], createFail := [false, true, false]
    searchCalls := 0, createCalls := 0 }

/-- The sample checker in dry-run mode. -/
def sampleDry : Checker :=
  { sampleChecker with dry_run := true }

/-- A record with the same display name as `arubaRecord` but a different
path and age. -/
def arubaRecordAlt : FileInfo :=
  { path := "holidays/aw.py"
    name := "Aruba"
    age_days := 300
    last_modified := "2023-06-01T00:00:00"
    threshold_days := 180
    directory_type := "holidays" }

/-- The tracker state after the sample run creates the Aruba issue. -/
def afterTracker : GithubState :=
  { openIssues := [⟨1, "[Holiday Updates] Update required: Aruba",
      "File holidays/aruba.py needs updating (last modified: January 01, 2024)",
      ["holiday-updates", "maintenance", "data-update"]⟩]
    nextNumber := 2, searchFail := [], createFail := []
    searchCalls := 1, createCalls := 1 }

/-! ## Helper lemmas -/

/-- Rounding an integer changes nothing. -/
theorem pyRound_intCast (n : ℤ) : pyRound ((n : ℚ)) = n := by
  simp [pyRound]

/-- Evaluation rule for the age conversion on exact multiples of a day. -/
theorem ageDaysOf_eval (now ts k : ℤ) (h : now - ts = 86400 * k) :
    ageDaysOf ((now : ℚ)) ts = k := by
  have hq : ((now : ℚ) - (ts : ℚ)) / 86400 = (k : ℚ) := by
    have : ((now : ℚ) - (ts : ℚ)) = ((now - ts : ℤ) : ℚ) := by push_cast; ring
    rw [this, h]
    push_cast
    ring
  rw [ageDaysOf, hq, pyRound_intCast]

/-- The map `relOf d` is injective in the file name. -/
theorem relOf_inj (d : DirModel) {f g : String} (h : relOf d f = relOf d g) : f = g := by
  have h2 := congrArg String.data h
  simp [relOf, String.data_append] at h2
  exact String.ext h2

/-- The value of `Except.isOk` on a success. -/
@[simp] theorem isOk_ok {ε α : Type} (a : α) : (Except.ok a : Except ε α).isOk = true := rfl

/-- The value of `Except.isOk` on a failure. -/
@[simp] theorem isOk_error {ε α : Type} (e : ε) : (Except.error e : Except ε α).isOk = false := rfl

/-- If the scan loop succeeds, the emitted record paths are exactly the
outdated files, in enumeration order. -/
theorem scanFiles_ok_map_path (c : Checker) (g : GitOracle) (now : ℚ)
    (d : DirModel) (T : ℤ) :
    ∀ (fs : List String) (L : List FileInfo),
      scanFiles c g now d T fs = .ok L →
      L.map (fun r => r.path)
        = (fs.filter (fun f => isOutdated g now d T f)).map (relOf d)
  | [], L, h => by
    simp [scanFiles] at h
    simp [← h]
  | f :: fs, L, h => by
    rw [scanFiles] at h
    cases hage : get_file_age_days g now (relOf d f) with
    | error e => rw [hage] at h; exact absurd h (by simp)
    | ok a =>
      rw [hage] at h
      dsimp only at h
      by_cases hT : a > T
      · rw [if_pos hT] at h
        cases hlm : get_last_commit_date g (relOf d f) with
        | error e => rw [hlm] at h; exact absurd h (by simp)
        | ok ts =>
          rw [hlm] at h
          dsimp only at h
          cases hrec : scanFiles c g now d T fs with
          | error e => rw [hrec] at h; exact absurd h (by simp)
          | ok tail =>
            rw [hrec] at h
            dsimp only at h
            rw [← Except.ok.inj h]
            have ih := scanFiles_ok_map_path c g now d T fs tail hrec
            simp [List.filter_cons, isOutdated, hage, hT, ih]
      · rw [if_neg hT] at h
        have ih := scanFiles_ok_map_path c g now d T fs L h
        simp [List.filter_cons, isOutdated, hage, hT, ih]

/-- If any file in the loop's list fails age resolution, the loop fails. -/
theorem scanFiles_error_of_age_error (c : Checker) (g : GitOracle) (now : ℚ)
    (d : DirModel) (T : ℤ) :
    ∀ (fs : List String) (f : String), f ∈ fs →
      (get_file_age_days g now (relOf d f)).isOk = false →
      (scanFiles c g now d T fs).isOk = false
  | [], f, hf, _ => by simp at hf
  | f' :: fs, f, hf, he => by
    rw [scanFiles]
    cases hage : get_file_age_days g now (relOf d f') with
    | error e => simp
    | ok a =>
      dsimp only
      have hf' : f ∈ fs := by
        rcases List.mem_cons.mp hf with h | h
        · subst h; rw [hage] at he; simp at he
        · exact h
      have ih := scanFiles_error_of_age_error c g now d T fs f hf' he
      by_cases hT : a > T
      · rw [if_pos hT]
        cases hlm : get_last_commit_date g (relOf d f') with
        | error e => simp
        | ok ts =>
          cases hrec : scanFiles c g now d T fs with
          | error e => simp
          | ok tail => rw [hrec] at ih; simp at ih
      · rw [if_neg hT]
        exact ih

/-- Each record contributes exactly one count: created on `True`, errors on
`False`. -/
theorem process_created_add_errors (c : Checker) :
    ∀ (st : GithubState) (files : List FileInfo),
      ((process_outdated_files c st files).2).created
        + ((process_outdated_files c st files).2).errors = files.length
  | _, [] => by simp [process_outdated_files]
  | st, fi :: rest => by
    rw [process_outdated_files]
    rcases h1 : create_github_issue c st fi with ⟨st1, ok⟩
    dsimp only
    have ih := process_created_add_errors c st1 rest
    rcases h2 : process_outdated_files c st1 rest with ⟨st2, stats⟩
    rw [h2] at ih
    dsimp only at ih ⊢
    cases ok <;> simp <;> omega

/-- The `skipped` counter is never incremented. -/
theorem process_skipped_eq_zero (c : Checker) :
    ∀ (st : GithubState) (files : List FileInfo),
      ((process_outdated_files c st files).2).skipped = 0
  | _, [] => by simp [process_outdated_files]
  | st, fi :: rest => by
    rw [process_outdated_files]
    rcases h1 : create_github_issue c st fi with ⟨st1, ok⟩
    dsimp only
    have ih := process_skipped_eq_zero c st1 rest
    rcases h2 : process_outdated_files c st1 rest with ⟨st2, stats⟩
    rw [h2] at ih
    dsimp only at ih ⊢
    cases ok <;> simp [ih]

/-- Dry-run reconciliation touches nothing and reports every record created. -/
theorem process_dry_run (c : Checker) (hdry : c.dry_run = true) :
    ∀ (st : GithubState) (files : List FileInfo),
      process_outdated_files c st files = (st, ⟨files.length, 0, 0⟩)
  | _, [] => by simp [process_outdated_files]
  | st, fi :: rest => by
    rw [process_outdated_files]
    have h1 : create_github_issue c st fi = (st, true) := by
      rw [create_github_issue, if_pos hdry]
    rw [h1]
    dsimp only
    rw [process_dry_run c hdry st rest]
    simp

/-- Reconciling a record whose title is not among the open issues, with both
API calls succeeding, creates the issue and reports success. -/
theorem create_github_issue_creates (c : Checker) (st : GithubState) (fi : FileInfo)
    (hdry : c.dry_run = false) (hrepo : c.hasRepo = true)
    (hsf : st.searchFail.headD false = false)
    (hcf : st.createFail.headD false = false)
    (hnone : st.openIssues.find? (fun i => i.title = create_issue_title fi) = none) :
    create_github_issue c st fi =
      ({ openIssues := st.openIssues
            ++ [⟨st.nextNumber, create_issue_title fi, create_issue_body c fi, issueLabels⟩]
         nextNumber := st.nextNumber + 1
         searchFail := st.searchFail.tail
         createFail := st.createFail.tail
         searchCalls := st.searchCalls + 1
         createCalls := st.createCalls + 1 }, true) := by
  rw [create_github_issue, if_neg (by simp [hdry]), if_neg (by simp [hrepo])]
  rw [find_existing_issue, if_neg (by simp [hrepo]), getIssues, if_neg (by simpa using hsf)]
  dsimp only
  rw [hnone]
  dsimp only
  rw [createIssue, if_neg (by simpa using hcf)]
  rfl

/-- Reconciling a record whose title is not among the open issues, with the
search succeeding but the creation raising, reports failure and leaves the
issue list unchanged. -/
theorem create_github_issue_create_fails (c : Checker) (st : GithubState) (fi : FileInfo)
    (hdry : c.dry_run = false) (hrepo : c.hasRepo = true)
    (hsf : st.searchFail.headD false = false)
    (hcf : st.createFail.headD false = true)
    (hnone : st.openIssues.find? (fun i => i.title = create_issue_title fi) = none) :
    create_github_issue c st fi =
      ({ openIssues := st.openIssues
         nextNumber := st.nextNumber
         searchFail := st.searchFail.tail
         createFail := st.createFail.tail
         searchCalls := st.searchCalls + 1
         createCalls := st.createCalls + 1 }, false) := by
  rw [create_github_issue, if_neg (by simp [hdry]), if_neg (by simp [hrepo])]
  rw [find_existing_issue, if_neg (by simp [hrepo]), getIssues, if_neg (by simpa using hsf)]
  dsimp only
  rw [hnone]
  dsimp only
  rw [createIssue, if_pos (by simpa using hcf)]

/-- The query loop takes the head query's result when it yields one. -/
theorem findFirstResult_some (g : GitOracle) (p : String) (q : GitQuery)
    (qs : List GitQuery) (ts : ℤ) (h : g.result p q = some ts) :
    findFirstResult g p (q :: qs) = some ts := by
  rw [findFirstResult, h]

/-- The query loop falls through to the remaining queries when the head
query yields nothing. -/
theorem findFirstResult_none (g : GitOracle) (p : String) (q : GitQuery)
    (qs : List GitQuery) (h : g.result p q = none) :
    findFirstResult g p (q :: qs) = findFirstResult g p qs := by
  rw [findFirstResult, h]

/-- Age of `aruba.py` in the sample world. -/
theorem sample_age_aruba :
    get_file_age_days sampleGit 0 (relOf sampleDir "aruba.py") = .ok 200 := by
  have h : ageDaysOf ((0 : ℤ) : ℚ) (-17280000) = 200 :=
    ageDaysOf_eval 0 (-17280000) 200 (by decide)
  have hp : relOf sampleDir "aruba.py" = "holidays/aruba.py" := by decide
  rw [hp]
  simp [get_file_age_days, sampleGit, findFirstResult, git_commands]
  norm_num at h
  exact h

/-- Age of `zambia.py` in the sample world. -/
theorem sample_age_zambia :
    get_file_age_days sampleGit 0 (relOf sampleDir "zambia.py") = .ok 10 := by
  have h : ageDaysOf ((0 : ℤ) : ℚ) (-864000) = 10 :=
    ageDaysOf_eval 0 (-864000) 10 (by decide)
  have hp : relOf sampleDir "zambia.py" = "holidays/zambia.py" := by decide
  rw [hp]
  simp [get_file_age_days, sampleGit, findFirstResult, git_commands]
  norm_num at h
  exact h

/-- The sample scan returns exactly the Aruba record. -/
theorem sample_scan :
    scan_directory sampleChecker sampleGit 0 sampleDir 180 = .ok [arubaRecord] := by
  have hpf : pythonFiles sampleDir = ["aruba.py", "zambia.py"] := by decide
  have h1 := sample_age_aruba
  have h2 := sample_age_zambia
  have hlma : get_last_commit_date sampleGit (relOf sampleDir "aruba.py")
      = .ok (-17280000) := rfl
  rw [scan_directory, if_neg (by decide), hpf, scanFiles, h1]
  dsimp only
  rw [if_pos (by decide : (200 : ℤ) > 180), hlma]
  dsimp only
  rw [scanFiles, h2]
  dsimp only
  rw [if_neg (by decide : ¬ ((10 : ℤ) > 180)), scanFiles]
  rfl

/-- Age of `zambia.py` under `oldGit`. -/
theorem oldGit_age_zambia :
    get_file_age_days oldGit 0 (relOf sampleDirRev "zambia.py") = .ok 300 := by
  have h : ageDaysOf ((0 : ℤ) : ℚ) (-25920000) = 300 :=
    ageDaysOf_eval 0 (-25920000) 300 (by decide)
  have hp : relOf sampleDirRev "zambia.py" = "holidays/zambia.py" := by decide
  rw [hp]
  simp [get_file_age_days, oldGit, findFirstResult, git_commands]
  norm_num at h
  exact h

/-- Age of `aruba.py` under `oldGit`. -/
theorem oldGit_age_aruba :
    get_file_age_days oldGit 0 (relOf sampleDirRev "aruba.py") = .ok 200 := by
  have h : ageDaysOf ((0 : ℤ) : ℚ) (-17280000) = 200 :=
    ageDaysOf_eval 0 (-17280000) 200 (by decide)
  have hp : relOf sampleDirRev "aruba.py" = "holidays/aruba.py" := by decide
  rw [hp]
  simp [get_file_age_days, oldGit, findFirstResult, git_commands]
  norm_num at h
  exact h

/-- The reversed-enumeration scan returns the records in glob order:
zambia first, aruba second. -/
theorem sampleRev_scan :
    scan_directory sampleChecker oldGit 0 sampleDirRev 180
      = .ok [zambiaRecord300, arubaRecord] := by
  have hpf : pythonFiles sampleDirRev = ["zambia.py", "aruba.py"] := by decide
  have h1 := oldGit_age_zambia
  have h2 := oldGit_age_aruba
  have hlmz : get_last_commit_date oldGit (relOf sampleDirRev "zambia.py")
      = .ok (-25920000) := rfl
  have hlma : get_last_commit_date oldGit (relOf sampleDirRev "aruba.py")
      = .ok (-17280000) := rfl
  rw [scan_directory, if_neg (by decide), hpf, scanFiles, h1]
  dsimp only
  rw [if_pos (by decide : (300 : ℤ) > 180), hlmz]
  dsimp only
  rw [scanFiles, h2]
  dsimp only
  rw [if_pos (by decide : (200 : ℤ) > 180), hlma]
  dsimp only
  rw [scanFiles]
  rfl

/-! ## The claims -/

/-- C1: for every scanned eligible file with resolved age `A` and threshold
`T`, the file is in the outdated set returned by the directory scan iff
`A > T` (strict: `A = T` is not outdated). -/
theorem c1_outdated_iff_strict_threshold
    (c : Checker) (g : GitOracle) (now : ℚ) (d : DirModel) (T A : ℤ)
    (L : List FileInfo) (f : String)
    (hd : d.dirExists = true)
    (hf : f ∈ pythonFiles d)
    (hA : get_file_age_days g now (relOf d f) = .ok A)
    (hs : scan_directory c g now d T = .ok L) :
    (∃ r ∈ L, r.path = relOf d f) ↔ A > T := by
  rw [scan_directory, if_neg (by simp [hd])] at hs
  have hmap := scanFiles_ok_map_path c g now d T (pythonFiles d) L hs
  constructor
  · rintro ⟨r, hr, hpath⟩
    have hmem : relOf d f ∈ L.map (fun r => r.path) := List.mem_map.mpr ⟨r, hr, hpath⟩
    rw [hmap, List.mem_map] at hmem
    obtain ⟨f2, hf2, heq⟩ := hmem
    have hff : f2 = f := relOf_inj d heq
    subst hff
    have hout := (List.mem_filter.mp hf2).2
    rw [isOutdated, hA] at hout
    exact of_decide_eq_true hout
  · intro hgt
    have hfil : f ∈ (pythonFiles d).filter (fun f => isOutdated g now d T f) :=
      List.mem_filter.mpr ⟨hf, by rw [isOutdated, hA]; exact decide_eq_true hgt⟩
    have hmem : relOf d f ∈ L.map (fun r => r.path) := by
      rw [hmap, List.mem_map]
      exact ⟨f, hfil, rfl⟩
    obtain ⟨r, hr, hpath⟩ := List.mem_map.mp hmem
    exact ⟨r, hr, hpath⟩

/-- Witness for C1 at the sample world: `aruba.py` resolved to 200 days
against threshold 180 is in the outdated set. -/
theorem c1_witness :
    (∃ r ∈ [arubaRecord], r.path = relOf sampleDir "aruba.py") ↔ (200 : ℤ) > 180 :=
  c1_outdated_iff_strict_threshold sampleChecker sampleGit 0 sampleDir 180 200
    [arubaRecord] "aruba.py" rfl (by decide) sample_age_aruba sample_scan

/-- C2: after reconciliation, `created + errors` equals the number of
outdated records, and a record whose issue is already open counts toward
`created`. -/
theorem c2_stats_partition (c : Checker) :
    (∀ (st : GithubState) (files : List FileInfo),
      ((process_outdated_files c st files).2).created
        + ((process_outdated_files c st files).2).errors = files.length)
    ∧ (∀ (st : GithubState) (fi : FileInfo),
        c.dry_run = false → c.hasRepo = true →
        st.searchFail.headD false = false →
        (st.openIssues.find? (fun i => i.title = create_issue_title fi)).isSome = true →
        (create_github_issue c st fi).2 = true) := by
  refine ⟨fun st files => process_created_add_errors c st files, ?_⟩
  intro st fi hdry hrepo hsf hfind
  rw [create_github_issue, if_neg (by simp [hdry]), if_neg (by simp [hrepo])]
  rw [find_existing_issue, if_neg (by simp [hrepo]), getIssues,
    if_neg (by simpa using hsf)]
  dsimp only
  obtain ⟨iss, hiss⟩ := Option.isSome_iff_exists.mp hfind
  rw [hiss]

/-- Witness for C2: two records against the empty tracker give
`created + errors = 2`; a record whose title is already open reconciles to
`True`. -/
theorem c2_witness :
    ((process_outdated_files sampleChecker emptyTracker [arubaRecord, arubaRecord]).2).created
      + ((process_outdated_files sampleChecker emptyTracker [arubaRecord, arubaRecord]).2).errors
      = 2
    ∧ (create_github_issue sampleChecker arubaOpenTracker arubaRecord).2 = true :=
  ⟨(c2_stats_partition sampleChecker).1 emptyTracker [arubaRecord, arubaRecord],
   (c2_stats_partition sampleChecker).2 arubaOpenTracker arubaRecord rfl rfl rfl (by decide)⟩

/-- Counterexample to C3 as stated: a tracker-API error raised during the
open-issue search is caught but NOT reported as a Failed outcome — the
record counts as created (`errors = 0`), and because the search result was
discarded a duplicate of the already-open issue is created. -/
theorem c3_search_error_swallowed_cex :
    ((process_outdated_files sampleChecker searchFailTracker [arubaRecord]).2
      = ⟨1, 0, 0⟩)
    ∧ ((process_outdated_files sampleChecker searchFailTracker [arubaRecord]).1.openIssues.map
        (fun i => i.title))
      = ["[Holiday Updates] Update required: Aruba",
         "[Holiday Updates] Update required: Aruba"] :=
  ⟨rfl, rfl⟩

/-- C3 (amended): a tracker-API error raised during issue creation is
caught and reported as a failure for that record alone; the batch completes,
with `createIssue` failing on the second of three records the final stats are
`created = 2`, `errors = 1`, and all three records were attempted (three
search calls and three creation calls were issued). -/
theorem c3_creation_error_isolated (c : Checker) (st : GithubState) (r1 r2 r3 : FileInfo)
    (hdry : c.dry_run = false) (hrepo : c.hasRepo = true)
    (hsf : st.searchFail = []) (hcf : st.createFail = [false, true, false])
    (hopen : ∀ i ∈ st.openIssues,
      i.title ≠ create_issue_title r1 ∧ i.title ≠ create_issue_title r2 ∧
        i.title ≠ create_issue_title r3)
    (h21 : create_issue_title r2 ≠ create_issue_title r1)
    (h31 : create_issue_title r3 ≠ create_issue_title r1) :
    ((process_outdated_files c st [r1, r2, r3]).2 = ⟨2, 0, 1⟩)
    ∧ (process_outdated_files c st [r1, r2, r3]).1.searchCalls = st.searchCalls + 3
    ∧ (process_outdated_files c st [r1, r2, r3]).1.createCalls = st.createCalls + 3 := by
  rcases st with ⟨issues, n, sf, cf, sc, cc⟩
  simp only at hsf hcf hopen
  subst hsf
  subst hcf
  have hn1 : issues.find? (fun i => i.title = create_issue_title r1) = none := by
    rw [List.find?_eq_none]
    intro i hi
    simp [(hopen i hi).1]
  have e1 := create_github_issue_creates c ⟨issues, n, [], [false, true, false], sc, cc⟩
    r1 hdry hrepo rfl rfl hn1
  simp only [List.tail_cons, List.tail_nil] at e1
  rw [process_outdated_files, e1]
  dsimp only
  have hn2 : (issues ++ [(⟨n, create_issue_title r1, create_issue_body c r1, issueLabels⟩ : Issue)]).find?
      (fun i => i.title = create_issue_title r2) = none := by
    rw [List.find?_eq_none]
    intro i hi
    rcases List.mem_append.mp hi with h | h
    · simp [(hopen i h).2.1]
    · simp only [List.mem_singleton] at h
      subst h
      simp only [decide_eq_true_eq]
      exact fun hh => h21 hh.symm
  have e2 := create_github_issue_create_fails c
    ⟨issues ++ [(⟨n, create_issue_title r1, create_issue_body c r1, issueLabels⟩ : Issue)], n + 1, [], [true, false], sc + 1, cc + 1⟩
    r2 hdry hrepo rfl rfl hn2
  simp only [List.tail_cons, List.tail_nil] at e2
  rw [process_outdated_files, e2]
  dsimp only
  have hn3 : (issues ++ [(⟨n, create_issue_title r1, create_issue_body c r1, issueLabels⟩ : Issue)]).find?
      (fun i => i.title = create_issue_title r3) = none := by
    rw [List.find?_eq_none]
    intro i hi
    rcases List.mem_append.mp hi with h | h
    · simp [(hopen i h).2.2]
    · simp only [List.mem_singleton] at h
      subst h
      simp only [decide_eq_true_eq]
      exact fun hh => h31 hh.symm
  have e3 := create_github_issue_creates c
    ⟨issues ++ [(⟨n, create_issue_title r1, create_issue_body c r1, issueLabels⟩ : Issue)], n + 1, [], [false], sc + 1 + 1, cc + 1 + 1⟩
    r3 hdry hrepo rfl rfl hn3
  simp only [List.tail_cons, List.tail_nil] at e3
  rw [process_outdated_files, e3]
  dsimp only
  rw [process_outdated_files]
  exact ⟨rfl, by dsimp only, by dsimp only⟩

/-- Witness for C3 (amended): `createIssue` raising on the second of three
records yields `created = 2`, `errors = 1`, with all three records attempted
(three searches, three creation calls). -/
theorem c3_witness :
    ((process_outdated_files sampleChecker threeSchedTracker
        [arubaRecord, boliviaRecord, chadRecord]).2 = ⟨2, 0, 1⟩)
    ∧ (process_outdated_files sampleChecker threeSchedTracker
        [arubaRecord, boliviaRecord, chadRecord]).1.searchCalls
      = threeSchedTracker.searchCalls + 3
    ∧ (process_outdated_files sampleChecker threeSchedTracker
        [arubaRecord, boliviaRecord, chadRecord]).1.createCalls
      = threeSchedTracker.createCalls + 3 :=
  c3_creation_error_isolated sampleChecker threeSchedTracker arubaRecord boliviaRecord chadRecord
    rfl rfl rfl rfl (by simp [threeSchedTracker]) (by decide) (by decide)

/-- Counterexample to C4 as stated: an age-resolution failure during the
scan escapes `run`, which returns no `RunResult` at all. -/
theorem c4_scan_failure_escapes_run_cex :
    run sampleChecker noHistoryGit 0 sampleDir emptyTracker "2024-01-01T00:00:00"
      = .error "No git commit history found for file: holidays/aruba.py" := rfl

/-- C4 (amended): whenever the scan stage succeeds, `run` returns a
`RunResult` regardless of any reconciliation failures — the reconciliation
stage never raises past `run`. -/
theorem c4_reconciliation_never_raises
    (c : Checker) (g : GitOracle) (now : ℚ) (d : DirModel) (st : GithubState)
    (iso : String) (files : List FileInfo)
    (h : check_freshness c g now d = .ok files) :
    run c g now d st iso =
      .ok ({ outdated_files := files
             stats := (process_outdated_files c st files).2
             timestamp := iso }, (process_outdated_files c st files).1) := by
  rw [run, h]

/-- Witness for C4 (amended): the sample run, whose scan succeeds, returns a
`RunResult`. -/
theorem c4_witness :
    run sampleChecker sampleGit 0 sampleDir emptyTracker "2024-01-01T00:00:00"
      = .ok ({ outdated_files := [arubaRecord]
               stats := (process_outdated_files sampleChecker emptyTracker [arubaRecord]).2
               timestamp := "2024-01-01T00:00:00" },
             (process_outdated_files sampleChecker emptyTracker [arubaRecord]).1) :=
  c4_reconciliation_never_raises sampleChecker sampleGit 0 sampleDir emptyTracker
    "2024-01-01T00:00:00" [arubaRecord] sample_scan

/-- C5: an age-resolution failure for any single eligible file is fatal: the
scan yields no (even partial) outdated list, and the failure propagates
through `run`. -/
theorem c5_history_failure_fatal
    (c : Checker) (g : GitOracle) (now : ℚ) (d : DirModel) (st : GithubState)
    (iso : String) (f : String)
    (hd : d.dirExists = true)
    (hf : f ∈ pythonFiles d)
    (he : (get_file_age_days g now (relOf d f)).isOk = false) :
    (scan_directory c g now d c.threshold_days).isOk = false
    ∧ (run c g now d st iso).isOk = false := by
  have hscan : (scan_directory c g now d c.threshold_days).isOk = false := by
    rw [scan_directory, if_neg (by simp [hd])]
    exact scanFiles_error_of_age_error c g now d c.threshold_days (pythonFiles d) f hf he
  refine ⟨hscan, ?_⟩
  rw [run]
  cases hcf : check_freshness c g now d with
  | error e => rfl
  | ok files =>
    rw [check_freshness] at hcf
    rw [hcf] at hscan
    simp at hscan

/-- Witness for C5: with no git history for `aruba.py`, the sample scan and
run both fail. -/
theorem c5_witness :
    (scan_directory sampleChecker noHistoryGit 0 sampleDir
      sampleChecker.threshold_days).isOk = false
    ∧ (run sampleChecker noHistoryGit 0 sampleDir emptyTracker
      "2024-01-01T00:00:00").isOk = false :=
  c5_history_failure_fatal sampleChecker noHistoryGit 0 sampleDir emptyTracker
    "2024-01-01T00:00:00" "aruba.py" rfl (by decide) rfl

/-- C6: the issue title is a pure function of the record's display name — a
fixed prefix plus the name — and the name of `aruba.py` is derived as
"Aruba". -/
theorem c6_title_deterministic :
    (∀ fi1 fi2 : FileInfo, fi1.name = fi2.name →
      create_issue_title fi1 = create_issue_title fi2)
    ∧ (∀ fi : FileInfo,
      create_issue_title fi = "[Holiday Updates] Update required: " ++ fi.name)
    ∧ extract_name_from_path "aruba.py" = "Aruba"
    ∧ create_issue_title arubaRecord = "[Holiday Updates] Update required: Aruba" := by
  refine ⟨?_, fun _ => rfl, by decide, by decide⟩
  intro fi1 fi2 h
  rw [create_issue_title, create_issue_title, h]

/-- Witness for C6: two records sharing the display name "Aruba" get
byte-identical titles. -/
theorem c6_witness :
    create_issue_title arubaRecord = create_issue_title arubaRecordAlt :=
  c6_title_deterministic.1 arubaRecord arubaRecordAlt rfl

/-- C7: in dry-run mode each reconciliation touches no tracker state (no
search, no creation — the call counters do not move) yet reports success, so
the batch reports every record created and the open-issue list is exactly
what it was before the run. -/
theorem c7_dry_run_frame (c : Checker) (hdry : c.dry_run = true) :
    (∀ (st : GithubState) (fi : FileInfo), create_github_issue c st fi = (st, true))
    ∧ (∀ (st : GithubState) (files : List FileInfo),
      process_outdated_files c st files = (st, ⟨files.length, 0, 0⟩)) :=
  ⟨fun st fi => by rw [create_github_issue, if_pos hdry],
   fun st files => process_dry_run c hdry st files⟩

/-- Witness for C7: a dry run over one record leaves the tracker untouched
and reports one creation. -/
theorem c7_witness :
    create_github_issue sampleDry emptyTracker arubaRecord = (emptyTracker, true)
    ∧ process_outdated_files sampleDry emptyTracker [arubaRecord]
      = (emptyTracker, ⟨1, 0, 0⟩) :=
  ⟨(c7_dry_run_frame sampleDry rfl).1 emptyTracker arubaRecord,
   (c7_dry_run_frame sampleDry rfl).2 emptyTracker [arubaRecord]⟩

/-- Counterexample to C8 as stated: when the glob enumerates
`zambia.py` before `aruba.py`, the scan returns the records in that
enumeration order, which is not lexicographic by path — the second record's
path precedes the first's. -/
theorem c8_not_lexicographic_cex :
    scan_directory sampleChecker oldGit 0 sampleDirRev 180
      = .ok [zambiaRecord300, arubaRecord]
    ∧ ¬ List.Chain' (fun a b : FileInfo => a.path.data ≤ b.path.data)
        [zambiaRecord300, arubaRecord] := by
  refine ⟨sampleRev_scan, fun h => ?_⟩
  have := (List.chain'_cons.mp h).1
  revert this
  decide

/-- C8 (amended): the scan's output order is the glob enumeration order, not
a sorted one — the record paths are exactly the outdated eligible files in
enumeration order, so the output is deterministic given the enumeration and
the resolved ages. -/
theorem c8_scan_preserves_enumeration_order
    (c : Checker) (g : GitOracle) (now : ℚ) (d : DirModel) (T : ℤ)
    (L : List FileInfo)
    (hd : d.dirExists = true)
    (hs : scan_directory c g now d T = .ok L) :
    L.map (fun r => r.path)
      = ((pythonFiles d).filter (fun f => isOutdated g now d T f)).map (relOf d) := by
  rw [scan_directory, if_neg (by simp [hd])] at hs
  exact scanFiles_ok_map_path c g now d T (pythonFiles d) L hs

/-- Witness for C8 (amended) at the sample world. -/
theorem c8_witness :
    ([arubaRecord].map (fun r => r.path))
      = ((pythonFiles sampleDir).filter
          (fun f => isOutdated sampleGit 0 sampleDir 180 f)).map (relOf sampleDir) :=
  c8_scan_preserves_enumeration_order sampleChecker sampleGit 0 sampleDir 180
    [arubaRecord] rfl sample_scan

/-- Counterexample to C9 as stated: the resolver is not the documented
two-step (rename-following, then plain) procedure — on a path whose record
only the third, `--all` query finds, the code succeeds while the two-step
resolver of the spec's words reports no history. -/
theorem c9_third_query_cex :
    (get_file_age_days allOnlyGit 0 "holidays/aruba.py").isOk = true
    ∧ (ageDays_specTwoStep allOnlyGit 0 "holidays/aruba.py").isOk = false :=
  ⟨rfl, rfl⟩

/-- C9 (amended): the resolver tries three queries in preference order —
rename-following, plain, then `--all` — returning the first nonempty result
and failing only when all three yield nothing. -/
theorem c9_query_preference_order
    (g : GitOracle) (now : ℚ) (p : String) (hs : g.statusOk = true) :
    (∀ ts : ℤ, g.result p .follow = some ts →
      get_file_age_days g now p = .ok (ageDaysOf now ts))
    ∧ (∀ ts : ℤ, g.result p .follow = none → g.result p .plain = some ts →
      get_file_age_days g now p = .ok (ageDaysOf now ts))
    ∧ (∀ ts : ℤ, g.result p .follow = none → g.result p .plain = none →
      g.result p .allRefs = some ts →
      get_file_age_days g now p = .ok (ageDaysOf now ts))
    ∧ (g.result p .follow = none → g.result p .plain = none →
      g.result p .allRefs = none →
      get_file_age_days g now p
        = .error ("No git commit history found for file: " ++ p)) := by
  refine ⟨?_, ?_, ?_, ?_⟩
  · intro ts h1
    rw [get_file_age_days, if_neg (by simp [hs])]
    simp only [git_commands]
    rw [findFirstResult_some g p _ _ ts h1]
  · intro ts h1 h2
    rw [get_file_age_days, if_neg (by simp [hs])]
    simp only [git_commands]
    rw [findFirstResult_none g p _ _ h1, findFirstResult_some g p _ _ ts h2]
  · intro ts h1 h2 h3
    rw [get_file_age_days, if_neg (by simp [hs])]
    simp only [git_commands]
    rw [findFirstResult_none g p _ _ h1, findFirstResult_none g p _ _ h2,
      findFirstResult_some g p _ _ ts h3]
  · intro h1 h2 h3
    rw [get_file_age_days, if_neg (by simp [hs])]
    simp only [git_commands]
    rw [findFirstResult_none g p _ _ h1, findFirstResult_none g p _ _ h2,
      findFirstResult_none g p _ _ h3, findFirstResult]

/-- Witness for C9 (amended): with the rename-following query empty and the
plain query yielding a record, the resolver returns the plain query's
result. -/
theorem c9_witness :
    get_file_age_days plainOnlyGit 0 "holidays/aruba.py"
      = .ok (ageDaysOf 0 (-864000)) :=
  (c9_query_preference_order plainOnlyGit 0 "holidays/aruba.py" rfl).2.1
    (-864000) rfl rfl

/-- C10: every `RunResult` returned by `run` has `skipped = 0`: the
accumulator initializes the counter but nothing increments it. -/
theorem c10_skipped_always_zero
    (c : Checker) (g : GitOracle) (now : ℚ) (d : DirModel) (st : GithubState)
    (iso : String) (r : RunResult) (st2 : GithubState)
    (h : run c g now d st iso = .ok (r, st2)) :
    r.stats.skipped = 0 := by
  rw [run] at h
  cases hcf : check_freshness c g now d with
  | error e => rw [hcf] at h; exact absurd h (by simp)
  | ok files =>
    rw [hcf] at h
    dsimp only at h
    have hskip := process_skipped_eq_zero c st files
    rcases hp : process_outdated_files c st files with ⟨stF, stats⟩
    rw [hp] at h hskip
    dsimp only at h hskip
    have hpair := Except.ok.inj h
    have hr : r = { outdated_files := files, stats := stats, timestamp := iso } :=
      (congrArg Prod.fst hpair).symm
    rw [hr]
    exact hskip

/-- Witness for C10: the sample run returns a result whose `skipped` is 0. -/
theorem c10_witness :
    ({ outdated_files := [arubaRecord], stats := ⟨1, 0, 0⟩,
       timestamp := "2024-01-01T00:00:00" } : RunResult).stats.skipped = 0 := by
  have hcf : check_freshness sampleChecker sampleGit 0 sampleDir = .ok [arubaRecord] :=
    sample_scan
  have hrun : run sampleChecker sampleGit 0 sampleDir emptyTracker "2024-01-01T00:00:00"
      = .ok ({ outdated_files := [arubaRecord], stats := ⟨1, 0, 0⟩,
               timestamp := "2024-01-01T00:00:00" }, afterTracker) := by
    rw [run, hcf]
    rfl
  exact c10_skipped_always_zero sampleChecker sampleGit 0 sampleDir emptyTracker
    "2024-01-01T00:00:00" _ _ hrun

end HolidayUpdates
